import Mathlib

/-!
Verification of the worker core of a Redis-backed job queue
(src/lib/queue/worker.js).

The worker is callback-driven JavaScript running on a single-threaded
event loop.  We embed it shallowly as a state-plus-writer monad `M`:
the worker fields (`running`, `job`, the per-type blocking client, the
listeners registered by `shutdown`, the grace timer) form the state,
and every externally visible operation (broker command issued, broker
reply observed, event emitted, callback invoked, field assigned)
appends an `Action` to a trace.

Asynchrony is modelled faithfully to the event loop: issuing an
asynchronous broker command appends an `...Issued` action and the code
that the source runs in the same tick appears in the trace before the
`...Resolved` action that marks the arrival of the reply and the run
of its callback.  The blocking `BLPOP` wait is driven by a list of
`RoundEnv` values: each round supplies the outcome of one wake-up, and
an exhausted list means the reply never arrives, i.e. the worker stays
parked on the wait.
-/

namespace KueWorker

/-- A JavaScript error value as the worker sees it: a plain string
(such as "Already Shutdown"), a structured object of shape
(error: Bool, message: String), or a thrown exception. -/
inductive JsError where
  | str (s : String)
  | structured (errorFlag : Bool) (message : String)
  | exn (tag : String)
  deriving DecidableEq, Repr

/-- A JavaScript result value, abstracted by the two operations the
worker performs on it: `JSON.stringify` (which can throw, modelled by
`none`) and string coercion (used when building the invalid-result
marker message). -/
structure JSValue where
  stringifyRes : Option String
  coerceStr : String
  deriving DecidableEq, Repr

/-- The slice of a `Job` the worker reads synchronously:
`id`, the stored base delay returned by `job.delay()`, the truthiness
of `job.backoff()`, the optional custom backoff function returned by
`job._getBackoffImpl()` (which may throw, modelled by `Except`), and
the `removeOnComplete` flag. -/
structure Job where
  id : Nat
  delayMs : Nat
  backoffOn : Bool
  backoffImpl : Option (Nat → Except JsError Nat)
  removeOnCompleteFlag : Bool

/-- The value of `this.job` in the source: `null`, the sentinel `true`
set between the blocking-wait wake-up and the job fetch, or a real job
object. -/
inductive JobSlot where
  | noJob
  | reserving
  | held (j : Job)

/-- Truthiness of `this.job` (`null` is falsy, `true` and a job object
are truthy). -/
def JobSlot.isNoJob : JobSlot → Bool
  | .noJob => true
  | _ => false

/-- First-order tag of a `JobSlot`, used in trace actions. -/
inductive SlotTag where
  | noJob
  | reserving
  | held (id : Nat)
  deriving DecidableEq, Repr

def JobSlot.tag : JobSlot → SlotTag
  | .noJob => .noJob
  | .reserving => .reserving
  | .held j => .held j.id

/-- Names of the local events the worker emits on itself. -/
inductive EvName where
  | error
  | jobComplete
  | jobFailed
  | jobFailedAttempt
  deriving DecidableEq, Repr

/-- Names of per-job events published on the shared event bus. -/
inductive PerJobEv where
  | complete
  | failed
  | failedAttempt
  deriving DecidableEq, Repr

/-- What the call job.set("result", ...) stores: either the JSON
serialization of the result, or the serialized structured marker built
when `JSON.stringify(result)` threw. -/
inductive StoredResult where
  | json (s : String)
  | invalidMarker (message : String)
  deriving DecidableEq, Repr

/-- One externally visible step of the worker.  `...Issued` marks an
asynchronous broker command being sent, `...Resolved` marks its reply
arriving and its callback starting to run. -/
inductive Action where
  | createClient
  | blpopIssued
  | blpopResolved
  | lpushToken
  | quitClient
  | zpopIssued
  | zpopResolved
  | jobGetIssued (id : Nat)
  | jobGetResolved (id : Nat)
  | slotSet (t : SlotTag)
  | startCbInvoked (err : Option JsError) (jobId : Option Nat)
  | nextTickStart
  | activeIssued (id : Nat)
  | activeResolved (id : Nat)
  | invokeProcessor (id : Nat)
  | setDuration (id : Nat)
  | setResult (id : Nat) (v : StoredResult)
  | completeIssued (id : Nat)
  | completeResolved (id : Nat)
  | removeJob (id : Nat)
  | errorAttach (id : Nat) (e : JsError)
  | failedIssued (id : Nat)
  | failedResolved (id : Nat)
  | attemptIssued (id : Nat)
  | attemptResolved (id : Nat)
  | updateIssued (id : Nat)
  | delayedIssued (id : Nat) (delayMs : Nat)
  | delayedResolved (id : Nat)
  | inactiveIssued (id : Nat)
  | inactiveResolved (id : Nat)
  | emitLocal (n : EvName)
  | emitPerJob (id : Nat) (n : PerJobEv)
  | clearTimer
  | removeAllListeners
  | shutdownCallback
  deriving DecidableEq, Repr

/-- Is the action an event emission (local or per-job)? -/
def Action.isEmit : Action → Bool
  | .emitLocal _ => true
  | .emitPerJob _ _ => true
  | _ => false

/-- Worker state: `running` and `job` are the fields of the same name,
`clientFor` models whether `clients[self.type]` is allocated,
`shutdownListeners` whether the three listeners registered by
`shutdown` are attached, and `timerSet` whether the local
`shutdownTimer` variable of the current `shutdown` invocation holds a
timer. -/
structure WState where
  running : Bool
  job : JobSlot
  clientFor : Bool
  shutdownListeners : Bool
  timerSet : Bool

/-- Environment for one wake-up of the blocking wait: the error the
`BLPOP` callback receives, whether a shutdown interleaved during the
park (flipping `running` before the callback runs), and the outcome of
the subsequent atomic sorted-set pop. -/
structure RoundEnv where
  blpopErr : Option JsError
  interleavedStop : Bool
  zpopRes : Except JsError (Option Nat)

/-- Behavior of the user processor `fn(job, done, ctx)`: it either
never calls `done`, or calls `done(err, result)` once. -/
inductive ProcBehavior where
  | noDone
  | callDone (err : Option JsError) (result : Option JSValue)

/-- Fixed environment: how `Job.get` resolves ids, the outcome
`(remaining, attempts, max)` or error that `job.attempt` yields, and
the processor behavior. -/
structure Env where
  jobOf : Nat → Job
  attemptRes : Except JsError (Nat × Nat × Nat)
  proc : ProcBehavior

/-- Mutable state threaded through a run: the worker fields plus the
outcomes of the blocking-wait rounds not yet consumed. -/
structure St where
  w : WState
  rounds : List RoundEnv

/-- The embedding monad: reader of `Env`, state `St`, writer of the
action trace. -/
def M (α : Type) : Type := Env → St → St × List Action × α

instance : Monad M where
  pure a := fun _ s => (s, [], a)
  bind x f := fun env s =>
    match x env s with
    | (s₁, t₁, a) =>
      match f a env s₁ with
      | (s₂, t₂, b) => (s₂, t₁ ++ t₂, b)

def act (a : Action) : M Unit := fun _ s => (s, [a], ())

def getW : M WState := fun _ s => (s, [], s.w)

def modW (f : WState → WState) : M Unit := fun _ s =>
  ({ s with w := f s.w }, [], ())

def askEnv : M Env := fun env s => (s, [], env)

/-- Consume the next blocking-wait round, or `none` when the reply
never arrives (the worker stays parked). -/
def takeRound : M (Option RoundEnv) := fun _ s =>
  match s.rounds with
  | [] => (s, [], none)
  | r :: rs => ({ s with rounds := rs }, [], some r)

/-- Assign `self.job`, recording the assignment in the trace. -/
def setJob (sl : JobSlot) : M Unit := do
  act (.slotSet sl.tag)
  modW fun w => { w with job := sl }

/-- Embedding of Worker.prototype.error (lines 85-93): builds the error payload
and emits the local `error` event.  No shutdown listener is attached
to `error`, so no dispatch happens here. -/
def emitErrorEv : M Unit := act (.emitLocal .error)

/-- The guard at the top of the function _fn defined inside shutdown (line 272):
`if (job && self.job && job.id != self.job.id) return;`.
When `self.job` is the boolean sentinel `true`, `self.job.id` is
`undefined`, so any real job id compares unequal and the event is
ignored. -/
def shutdownFnGuardIgnores (jobArg : Option Nat) : JobSlot → Bool
  | .held cur =>
      match jobArg with
      | some i => decide (i ≠ cur.id)
      | none => false
  | .reserving => jobArg.isSome
  | .noJob => false

/-- The function _fn defined inside shutdown (lines 271-284): clear the grace timer, detach
all listeners, clear `self.job`, push a recovery token onto the
notification list via the shared client, quit and delete the per-type
blocking client if present, and invoke the user callback. -/
def shutdownFn (jobArg : Option Nat) : M Unit := do
  let w ← getW
  if shutdownFnGuardIgnores jobArg w.job then pure ()
  else do
    if w.timerSet then act .clearTimer else pure ()
    act .removeAllListeners
    modW fun w => { w with shutdownListeners := false }
    setJob .noJob
    act .lpushToken
    let w ← getW
    if w.clientFor then do
      act .quitClient
      modW fun w => { w with clientFor := false }
    else pure ()
    act .shutdownCallback

/-- Embedding of self.emit(name, job) for the three lifecycle events.  Node
event emission is synchronous: if the listeners registered by shutdown are attached,
`_fn` runs inline with the job argument. -/
def emitLocalEv (n : EvName) (jobArg : Option Nat) : M Unit := do
  act (.emitLocal n)
  let w ← getW
  if w.shutdownListeners &&
     (n == .jobComplete || n == .jobFailed || n == .jobFailedAttempt) then
    shutdownFn jobArg
  else pure ()

/-- Embedding of Worker.prototype.zpop (lines 212-222): one MULTI transaction of
ZRANGE 0 0 and ZREMRANGEBYRANK 0 0; the callback receives the popped
id, `none` for an empty set, or the transaction error.  The outcome is
supplied by the current round. -/
def zpop (res : Except JsError (Option Nat)) : M (Except JsError (Option Nat)) := do
  act .zpopIssued
  act .zpopResolved
  pure res

/-- How a `getJob` run ends: the reply never arrived (worker parked on
the blocking wait), or the callback `fn` was invoked with an optional
error and an optional job. -/
inductive ClaimOutcome where
  | parked
  | cbInvoked (err : Option JsError) (job : Option Job)

/-- Embedding of Worker.prototype.getJob (lines 231-257).
Lines 235-236: lazily allocate the per-type blocking client.
Lines 238-240: if not running, fail with "Already Shutdown".
Line 242: issue the blocking `BLPOP` on the notification list.
Lines 243-245: on wake-up with an error or when no longer running,
push a recovery token back and invoke `fn(err)` without popping.
Line 248: set the reserving sentinel (`self.job = true`).
Lines 249-255: atomic pop; on error or empty set reset `self.job` and
invoke `fn` without a job, otherwise load the job by id. -/
def getJob : M ClaimOutcome := do
  let w ← getW
  if !w.clientFor then do
    modW fun w => { w with clientFor := true }
    act .createClient
  else pure ()
  let w ← getW
  if !w.running then
    pure (.cbInvoked (some (.str "Already Shutdown")) none)
  else do
    act .blpopIssued
    match ← takeRound with
    | none => pure .parked
    | some r => do
        if r.interleavedStop then modW fun w => { w with running := false }
        else pure ()
        act .blpopResolved
        let w ← getW
        if r.blpopErr.isSome || !w.running then do
          act .lpushToken
          pure (.cbInvoked r.blpopErr none)
        else do
          setJob .reserving
          match ← zpop r.zpopRes with
          | .error e => do
              setJob .noJob
              pure (.cbInvoked (some e) none)
          | .ok none => do
              setJob .noJob
              pure (.cbInvoked none none)
          | .ok (some i) => do
              act (.jobGetIssued i)
              act (.jobGetResolved i)
              pure (.cbInvoked none (some ((← askEnv).jobOf i)))

/-- Control phases of the callback chain of the worker: the claim loop
(`start`), processing a claimed job (`process`), and the failure path
(`failed`). -/
inductive Phase where
  | claimLoop
  | processJob (j : Job)
  | failedJob (j : Job) (e : JsError)

/-- The mutually recursive callback chain of `start` (lines 61-74),
`process` (lines 151-202) and `failed` (lines 106-137), fuelled to
bound the tail-recursive re-arming.

Event-loop ordering is preserved: in `process`, line 179
`self.start(fn)` runs in the same tick as issuing `job.complete(cb)`
on line 170, so the claim-loop actions appear in the trace before
`completeResolved`; likewise in `failed`, line 134 `self.start(fn)`
runs after issuing `job.delayed(emit)` / `job.inactive(emit)` on lines
126/128 but before their callbacks run. -/
def loop : Nat → Phase → M Unit
  | 0, _ => pure ()
  | fuel + 1, ph =>
    match ph with
    | .claimLoop => do
        -- line 63: self.job = null
        setJob .noJob
        let w ← getW
        -- line 64: if (!self.running) return
        if !w.running then pure ()
        else do
          match ← getJob with
          | .parked => pure ()
          | .cbInvoked err jobOpt => do
              act (.startCbInvoked err (jobOpt.map Job.id))
              -- line 66: if (err) self.error(err, job)
              if err.isSome then emitErrorEv else pure ()
              -- line 67: if (!job || err) retry on next tick
              if jobOpt.isNone || err.isSome then do
                act .nextTickStart
                loop fuel .claimLoop
              else
                match jobOpt with
                | some j => do
                    -- line 70: self.job = job
                    setJob (.held j)
                    loop fuel (.processJob j)
                | none => pure ()
    | .processJob j => do
        -- line 154: job.active(cb)
        act (.activeIssued j.id)
        act (.activeResolved j.id)
        -- line 155: fn(job, done, ctx)
        act (.invokeProcessor j.id)
        match (← askEnv).proc with
        | .noDone => pure ()
        | .callDone (some e) _ =>
            -- lines 158-160: failure path
            loop fuel (.failedJob j e)
        | .callDone none result => do
            -- line 161: job.set("duration", ...)
            act (.setDuration j.id)
            match result with
            | none => pure ()
            | some r =>
                match r.stringifyRes with
                | some s =>
                    -- line 165: job.set("result", JSON.stringify(result))
                    act (.setResult j.id (.json s))
                | none =>
                    -- line 167: serialization threw; store the marker
                    act (.setResult j.id (.invalidMarker
                      ("Invalid JSON Result: \"" ++ r.coerceStr ++ "\"")))
            -- line 170: job.complete(cb) issued
            act (.completeIssued j.id)
            -- line 179: self.start(fn), same tick, before the reply
            loop fuel .claimLoop
            -- the complete reply arrives; its callback runs
            act (.completeResolved j.id)
            -- line 171: job.attempt(cb)
            act (.attemptIssued j.id)
            act (.attemptResolved j.id)
            -- lines 172-173
            emitLocalEv .jobComplete (some j.id)
            act (.emitPerJob j.id .complete)
            -- lines 174-176
            if j.removeOnCompleteFlag then act (.removeJob j.id)
            else pure ()
    | .failedJob j e => do
        -- line 108: job.error(err).failed(cb)
        act (.errorAttach j.id e)
        act (.failedIssued j.id)
        act (.failedResolved j.id)
        -- line 109: job.attempt(cb)
        act (.attemptIssued j.id)
        act (.attemptResolved j.id)
        match (← askEnv).attemptRes with
        | .error _ =>
            -- line 110: return self.error(error, job) - no re-arm
            emitErrorEv
        | .ok (remaining, attempts, _maxA) =>
            if remaining ≠ 0 then
              if j.backoffOn then do
                -- line 118: var delay = job.delay()
                -- lines 119-125: custom backoff, falling back on throw
                match j.backoffImpl with
                | some f =>
                    (match f attempts with
                     | .ok d => do
                         -- line 126: job.delay(delay).update().delayed(emit)
                         act (.updateIssued j.id)
                         act (.delayedIssued j.id d)
                     | .error _ => do
                         -- line 123: self.error(e, job), delay unchanged
                         emitErrorEv
                         act (.updateIssued j.id)
                         act (.delayedIssued j.id j.delayMs))
                | none => do
                    act (.updateIssued j.id)
                    act (.delayedIssued j.id j.delayMs)
                -- line 134: self.start(fn), same tick, before the reply
                loop fuel .claimLoop
                -- the delayed reply arrives; emit runs (lines 112-115)
                act (.delayedResolved j.id)
                emitLocalEv .jobFailedAttempt (some j.id)
                act (.emitPerJob j.id .failedAttempt)
              else do
                -- line 128: job.inactive(emit)
                act (.inactiveIssued j.id)
                -- line 134: self.start(fn) before the reply
                loop fuel .claimLoop
                act (.inactiveResolved j.id)
                emitLocalEv .jobFailedAttempt (some j.id)
                act (.emitPerJob j.id .failedAttempt)
            else do
              -- lines 131-132: terminal failure, synchronous emits
              emitLocalEv .jobFailed (some j.id)
              act (.emitPerJob j.id .failed)
              -- line 134: self.start(fn)
              loop fuel .claimLoop

/-- Embedding of Worker.prototype.start (lines 61-74). -/
def start (fuel : Nat) : M Unit := loop fuel .claimLoop

/-- Embedding of Worker.prototype.process (lines 151-202). -/
def process (fuel : Nat) (j : Job) : M Unit := loop fuel (.processJob j)

/-- Embedding of Worker.prototype.failed (lines 106-137). -/
def failed (fuel : Nat) (j : Job) (e : JsError) : M Unit :=
  loop fuel (.failedJob j e)

/-- Embedding of Worker.prototype.shutdown (lines 267-296), synchronous part.
Line 285: if already not running, run `_fn` immediately.
Line 286: flip `running` to false.
Lines 289-291: with no current job, run `_fn` immediately.
Lines 292-294: otherwise attach `_fn` to the three lifecycle events.
Lines 296-297: if a (truthy) timeout was given, arm the grace timer. -/
def shutdown (timeout : Option Nat) : M Unit := do
  let w ← getW
  if !w.running then shutdownFn none
  else do
    modW fun w => { w with running := false }
    let w ← getW
    if w.job.isNoJob then shutdownFn none
    else do
      modW fun w => { w with shutdownListeners := true }
      match timeout with
      | some _ => modW fun w => { w with timerSet := true }
      | none => pure ()

/-- The grace-timer callback (lines 297-307): with a job in flight
(`self.job` not the sentinel `true`) force-fail it with the structured
Shutdown error, passing `_fn` as continuation; with the reserving
sentinel do nothing; with no job run `_fn` directly. -/
def shutdownTimerFire (fuel : Nat) : M Unit := do
  let w ← getW
  match w.job with
  | .held j => loop fuel (.failedJob j (.structured true "Shutdown"))
  | .reserving => pure ()
  | .noJob => shutdownFn none

/-- Embedding of Worker.prototype.resume (lines 311-315) as a pure function on
the worker state. -/
def resumeFn (w : WState) : Bool × WState :=
  if w.running then (false, w)
  else (true, { w with running := true })

def resumeM : M Bool := fun _ s =>
  match resumeFn s.w with
  | (b, w) => ({ s with w := w }, [], b)

/-- The resume member of the processor control surface (lines
193-197): re-arm the claim loop iff `self.resume()` flipped the
state. -/
def ctrlResume (fuel : Nat) : M Unit := do
  let b ← resumeM
  if b then loop fuel .claimLoop else pure ()

/-- Run an embedded program, returning the final state and trace. -/
def runM (m : M Unit) (env : Env) (s : St) : St × List Action :=
  match m env s with
  | (s₁, t, _) => (s₁, t)

def traceOf (m : M Unit) (env : Env) (s : St) : List Action :=
  (runM m env s).2

def stateOf (m : M Unit) (env : Env) (s : St) : St :=
  (runM m env s).1

/-- A default job used to build concrete scenarios. -/
def job0 : Job :=
  { id := 42, delayMs := 300, backoffOn := false, backoffImpl := none,
    removeOnCompleteFlag := false }

/-- A default environment. -/
def env0 : Env :=
  { jobOf := fun i => { job0 with id := i },
    attemptRes := .ok (0, 1, 1),
    proc := .noDone }

/-- A freshly constructed worker (lines 39-45): running, no job, no
per-type blocking client yet. -/
def w0 : WState :=
  { running := true, job := .noJob, clientFor := false,
    shutdownListeners := false, timerSet := false }


/-! ## Claim scenarios -/

/-- C1 scenario: a claimed job is processed and the processor calls
done(null, result).  The claim loop re-armed by line 179 finds no
further notification (no rounds), so it parks on the blocking wait. -/
def c1run (j : Job) (result : Option JSValue) : St × List Action :=
  runM (process 2 j) { env0 with proc := .callDone none result }
    { w := { w0 with clientFor := true }, rounds := [] }

/-- C2 scenario: a running worker with no current job and an allocated
per-type blocking client. -/
def c2start : St := { w := { w0 with clientFor := true }, rounds := [] }

/-- First shutdown call on `c2start`. -/
def c2firstRun : St × List Action := runM (shutdown none) env0 c2start

/-- Second shutdown call, run from the state the first one left. -/
def c2secondRun : St × List Action := runM (shutdown none) env0 c2firstRun.1

/-- C3: the in-flight job, with id 7 and the given delay, backoff
configuration (the custom backoff function, when present, is
determined by its outcome `b`) and removeOnComplete flag. -/
def c3job (d : Nat) (bo rm : Bool) (b : Option (Except JsError Nat)) : Job :=
  { id := 7, delayMs := d, backoffOn := bo,
    backoffImpl := b.map (fun r _ => r), removeOnCompleteFlag := rm }

/-- C3 scenario, job-in-flight case: shutdown is called with a timeout
while the job is in flight, then the grace timer fires.  `att` is the
(remaining, attempts, max) triple that job.attempt yields. -/
def c3run (d : Nat) (bo rm : Bool) (b : Option (Except JsError Nat))
    (att : Nat × Nat × Nat) : St × List Action :=
  runM (do shutdown (some 500); shutdownTimerFire 2)
    { env0 with attemptRes := .ok att }
    { w := { w0 with job := .held (c3job d bo rm b), clientFor := true },
      rounds := [] }

/-- C3 scenario, reserving case: the timer fires while `self.job` is
the reserving sentinel (shutdown already flipped `running` and
attached its listeners). -/
def c3reservingState : WState :=
  { running := false, job := .reserving, clientFor := true,
    shutdownListeners := true, timerSet := true }

def c3reservingRun : St × List Action :=
  runM (shutdownTimerFire 2) env0 { w := c3reservingState, rounds := [] }

/-- C4 scenario, parked case: the claim loop runs and the blocking
wait never returns (no rounds), i.e. the worker is parked. -/
def c4parked : St × List Action := runM (start 1) env0 { w := w0, rounds := [] }

/-- C4 scenario, wake-up case: one clean wake-up whose sorted-set pop
has outcome `z`. -/
def c4round (z : Except JsError (Option Nat)) : RoundEnv :=
  { blpopErr := none, interleavedStop := false, zpopRes := z }

def c4wake (z : Except JsError (Option Nat)) : St × List Action :=
  runM (start 1) env0 { w := w0, rounds := [c4round z] }

/-- C5 scenario: one wake-up that carries an error `e` and/or raced
with a shutdown that flipped `running` during the park (`stop`). -/
def c5round (e : Option JsError) (stop : Bool) : RoundEnv :=
  { blpopErr := e, interleavedStop := stop, zpopRes := .ok none }

def c5run (e : Option JsError) (stop : Bool) : St × List Action :=
  runM (start 1) env0 { w := w0, rounds := [c5round e stop] }

/-- C6 scenario: a clean wake-up whose atomic pop finds the sorted set
drained by a peer; the loop then re-parks (second round absent). -/
def c6round : RoundEnv :=
  { blpopErr := none, interleavedStop := false, zpopRes := .ok none }

def c6run : St × List Action := runM (start 2) env0 { w := w0, rounds := [c6round] }

/-- C7: a job whose custom backoff function throws `ex` on every
invocation, in particular on the current attempts count. -/
def c7job (i d : Nat) (rm : Bool) (ex : JsError) : Job :=
  { id := i, delayMs := d, backoffOn := true,
    backoffImpl := some (fun _ => .error ex), removeOnCompleteFlag := rm }

/-- C7 scenario: the job failed with error `e`, and job.attempt yields
`r + 1` remaining attempts. -/
def c7run (i d : Nat) (rm : Bool) (ex e : JsError) (r a m : Nat) :
    St × List Action :=
  runM (failed 2 (c7job i d rm ex) e) { env0 with attemptRes := .ok (r + 1, a, m) }
    { w := { w0 with clientFor := true }, rounds := [] }

/-- C8: a minimal job with the given id and removeOnComplete flag. -/
def c8job (i : Nat) (rm : Bool) : Job :=
  { id := i, delayMs := 0, backoffOn := false, backoffImpl := none,
    removeOnCompleteFlag := rm }

/-- C8 scenario: the processor succeeds with a result whose
JSON.stringify throws and whose string coercion is `cs`. -/
def c8run (i : Nat) (rm : Bool) (cs : String) : St × List Action :=
  runM (process 2 (c8job i rm))
    { env0 with proc := .callDone none (some { stringifyRes := none, coerceStr := cs }) }
    { w := { w0 with clientFor := true }, rounds := [] }

/-- C10 scenario, step 1: shutdown a running worker that has an
allocated per-type blocking client and no current job. -/
def c10shutdownRun : St × List Action :=
  runM (shutdown none) env0 { w := { w0 with clientFor := true }, rounds := [] }

/-- C10 scenario, step 2: resume after the completed shutdown. -/
def c10resume : Bool × WState := resumeFn c10shutdownRun.1.w

/-- C10 scenario, step 3: the claim loop after the resume. -/
def c10claim : St × List Action :=
  runM (start 1) env0 { w := c10resume.2, rounds := [] }

/-! ## Claim theorems -/

/-- C1 counterexample: on a successfully completing job (job0, no
result), the re-armed claim loop issues its blocking wait (trace index
6) strictly before the terminal complete transition resolves (trace
index 7), so it is false that the next claim is initiated only after
the terminal transition to complete has resolved. -/
theorem c1_counterexample :
    (c1run job0 none).2.get? 6 = some .blpopIssued ∧
    (c1run job0 none).2.get? 7 = some (.completeResolved job0.id) ∧
    ¬ (∀ ib ic : Nat,
        (c1run job0 none).2.get? ib = some .blpopIssued →
        (c1run job0 none).2.get? ic = some (.completeResolved job0.id) →
        ic < ib) := by
  refine ⟨rfl, rfl, fun h => ?_⟩
  have h2 := h 6 7 rfl rfl
  omega

/-- C1 amended: for every job that completes successfully, the worker
issues the terminal complete command before re-arming, but re-arms the
claim loop in the same tick without waiting for the transition to
resolve: the complete command is issued, then the next claim blocking
wait is initiated, and only then does the complete transition
resolve. -/
theorem c1_rearm_ordering (j : Job) (result : Option JSValue) :
    ∃ a b c : Nat, a < b ∧ b < c ∧
      (c1run j result).2.get? a = some (.completeIssued j.id) ∧
      (c1run j result).2.get? b = some .blpopIssued ∧
      (c1run j result).2.get? c = some (.completeResolved j.id) := by
  rcases j with ⟨i, dm, bo, bi, rm⟩
  rcases result with _ | ⟨sr, cs⟩
  · cases rm
    · exact ⟨4, 6, 7, by omega, by omega, rfl, rfl, rfl⟩
    · exact ⟨4, 6, 7, by omega, by omega, rfl, rfl, rfl⟩
  · rcases sr with _ | s
    · cases rm
      · exact ⟨5, 7, 8, by omega, by omega, rfl, rfl, rfl⟩
      · exact ⟨5, 7, 8, by omega, by omega, rfl, rfl, rfl⟩
    · cases rm
      · exact ⟨5, 7, 8, by omega, by omega, rfl, rfl, rfl⟩
      · exact ⟨5, 7, 8, by omega, by omega, rfl, rfl, rfl⟩

/-- C2 counterexample: after a first shutdown completed (running is
false and its callback was invoked), a second shutdown call does push
onto the notification list via the shared client, so it is false that
the second call performs no list pushes. -/
theorem c2_counterexample :
    c2firstRun.1.w.running = false ∧
    Action.shutdownCallback ∈ c2firstRun.2 ∧
    Action.lpushToken ∈ c2secondRun.2 := by
  refine ⟨rfl, by decide, by decide⟩

/-- C2 amended: the second shutdown call invokes its callback and
closes no connection, but it does push exactly one recovery token onto
the notification list via the shared client. -/
theorem c2_second_shutdown :
    Action.shutdownCallback ∈ c2secondRun.2 ∧
    Action.quitClient ∉ c2secondRun.2 ∧
    c2secondRun.2.count .lpushToken = 1 := by
  refine ⟨by decide, by decide, rfl⟩

/-- C3: when shutdown was called with a timeout while a job (id 7) is
in flight, the grace timer on firing force-fails the job with the
structured error (error: true, message: "Shutdown") — the first action
is attaching that error — and the shutdown listener runs to completion
(invoking the shutdown callback) after the failure transition was
issued, for every attempt outcome and backoff configuration; if
instead the slot holds the reserving sentinel when the timer fires,
the timer performs no action and leaves the state unchanged. -/
theorem c3_grace_timer (d r a m : Nat) (bo rm : Bool)
    (b : Option (Except JsError Nat)) :
    ((c3run d bo rm b (r, a, m)).2.get? 0 =
        some (.errorAttach 7 (.structured true "Shutdown")) ∧
      (∃ k l : Nat, k < l ∧
        (c3run d bo rm b (r, a, m)).2.get? k = some (.failedIssued 7) ∧
        (c3run d bo rm b (r, a, m)).2.get? l = some .shutdownCallback)) ∧
    (c3reservingRun.2 = [] ∧ c3reservingRun.1.w.job.tag = .reserving) := by
  refine ⟨?_, rfl, rfl⟩
  rcases r with _ | r2
  · exact ⟨rfl, 1, 11, by omega, rfl, rfl⟩
  · cases bo
    · exact ⟨rfl, 1, 14, by omega, rfl, rfl⟩
    · rcases b with _ | b2
      · exact ⟨rfl, 1, 15, by omega, rfl, rfl⟩
      · rcases b2 with ex | d2
        · exact ⟨rfl, 1, 16, by omega, rfl, rfl⟩
        · exact ⟨rfl, 1, 15, by omega, rfl, rfl⟩

/-- C4 counterexample: while the worker is parked on the blocking wait
(the wait was initiated and no reply has arrived), the job slot is
no-job, and no reserving mark was ever set, so it is false that the
worker marks current = reserving before initiating the blocking
wait. -/
theorem c4_counterexample :
    Action.blpopIssued ∈ c4parked.2 ∧
    Action.slotSet .reserving ∉ c4parked.2 ∧
    c4parked.1.w.job.tag = .noJob := by
  refine ⟨by decide, by decide, rfl⟩

/-- C4 amended: for every claim, the worker marks current = reserving
only after the blocking wait has returned (and the worker is still
running), immediately before initiating the sorted-set pop; until the
wait returns the slot holds no-job (the prefix of the trace up to the
wake-up contains only the no-job assignment, the client allocation and
the wait itself). -/
theorem c4_sentinel_after_wake (z : Except JsError (Option Nat)) :
    (c4wake z).2.take 4 =
      [.slotSet .noJob, .createClient, .blpopIssued, .blpopResolved] ∧
    (c4wake z).2.get? 4 = some (.slotSet .reserving) ∧
    (c4wake z).2.get? 5 = some .zpopIssued := by
  rcases z with e | oi
  · exact ⟨rfl, rfl, rfl⟩
  · rcases oi with _ | i
    · exact ⟨rfl, rfl, rfl⟩
    · exact ⟨rfl, rfl, rfl⟩

/-- C5: on a wake-up that carries an error or finds the worker no
longer running, the worker pushes a recovery token back onto the
notification list, never issues the sorted-set pop, and invokes the
claim callback with exactly the error of the wait and no job. -/
theorem c5_wake_error_or_stopped (e : Option JsError) (stop : Bool)
    (h : e.isSome = true ∨ stop = true) :
    Action.lpushToken ∈ (c5run e stop).2 ∧
    Action.zpopIssued ∉ (c5run e stop).2 ∧
    (c5run e stop).2.get? 5 = some (.startCbInvoked e none) := by
  rcases e with _ | e
  · cases stop
    · rcases h with h | h
      · simp at h
      · simp at h
    · exact ⟨by decide, by decide, rfl⟩
  · cases stop
    · exact ⟨of_decide_eq_true rfl, of_decide_eq_false rfl, rfl⟩
    · exact ⟨of_decide_eq_true rfl, of_decide_eq_false rfl, rfl⟩

/-- C5 witness: the theorem at the concrete wake-up error "boom" with
no interleaved shutdown. -/
theorem c5_witness :
    Action.lpushToken ∈ (c5run (some (.str "boom")) false).2 ∧
    Action.zpopIssued ∉ (c5run (some (.str "boom")) false).2 ∧
    (c5run (some (.str "boom")) false).2.get? 5 =
      some (.startCbInvoked (some (.str "boom")) none) :=
  c5_wake_error_or_stopped (some (.str "boom")) false (Or.inl rfl)

/-- C6: when the notification wait succeeds but the atomic pop on the
inactive sorted set yields no id, the worker resets the slot to no-job
(right after the pop resolves) and invokes the claim callback with no
job and no error; the claim loop then re-parks — a second blocking
wait is issued — and no event is emitted anywhere in the episode. -/
theorem c6_empty_pop_reparks :
    (c6run.2.get? 6 = some .zpopResolved ∧
     c6run.2.get? 7 = some (.slotSet .noJob) ∧
     c6run.2.get? 8 = some (.startCbInvoked none none)) ∧
    c6run.1.w.job.tag = .noJob ∧
    c6run.2.count .blpopIssued = 2 ∧
    c6run.2.all (fun x => !x.isEmit) = true := by
  exact ⟨⟨rfl, rfl, rfl⟩, rfl, rfl, rfl⟩

/-- C7: for a failed job with remaining attempts, backoff configured,
and a custom backoff function that throws, the worker emits an error
event and then still transitions the job to delayed using the stored
base delay of the job as fallback. -/
theorem c7_backoff_throws (i d : Nat) (rm : Bool) (ex e : JsError) (r a m : Nat) :
    (c7run i d rm ex e r a m).2.get? 5 = some (.emitLocal .error) ∧
    (c7run i d rm ex e r a m).2.get? 7 = some (.delayedIssued i d) ∧
    (c7run i d rm ex e r a m).2.get? 10 = some (.delayedResolved i) :=
  ⟨rfl, rfl, rfl⟩

/-- C8: for a successfully processed job whose result cannot be
JSON-serialized, the worker stores the structured marker with message
"Invalid JSON Result: <stringified result in quotes>" as the persisted
result, and the job still transitions to complete (the complete
command is issued and resolves). -/
theorem c8_invalid_json_result (i : Nat) (rm : Bool) (cs : String) :
    (c8run i rm cs).2.get? 4 =
      some (.setResult i (.invalidMarker ("Invalid JSON Result: \"" ++ cs ++ "\""))) ∧
    (c8run i rm cs).2.get? 5 = some (.completeIssued i) ∧
    (c8run i rm cs).2.get? 8 = some (.completeResolved i) := by
  cases rm
  · exact ⟨rfl, rfl, rfl⟩
  · exact ⟨rfl, rfl, rfl⟩

/-- C9: resume() returns true and flips running to true if and only if
the worker was not running when called; after resume the worker is
always running; when called while already running it returns false and
leaves the state unchanged, and the control-surface resume does not
re-arm the claim loop (its run performs no action). -/
theorem c9_resume_iff_not_running (w : WState) :
    ((resumeFn w).1 = true ↔ w.running = false) ∧
    ((resumeFn w).2.running = true) ∧
    (w.running = true → resumeFn w = (false, w)) ∧
    (w.running = true →
      (runM (ctrlResume 3) env0 { w := w, rounds := [] }).2 = []) := by
  rcases w with ⟨run, sl, cf, lis, ts⟩
  cases run
  · refine ⟨by simp [resumeFn], rfl, fun h => by simp at h, fun h => by simp at h⟩
  · refine ⟨by simp [resumeFn], rfl, fun _ => rfl, fun _ => rfl⟩

/-- C9 witness: the theorem applied to a freshly constructed (running)
worker, discharging the running hypothesis. -/
theorem c9_witness :
    resumeFn w0 = (false, w0) ∧
    (runM (ctrlResume 3) env0 { w := w0, rounds := [] }).2 = [] :=
  ⟨(c9_resume_iff_not_running w0).2.2.1 rfl,
   (c9_resume_iff_not_running w0).2.2.2 rfl⟩

/-- C10: the lifecycle state is a single boolean and does not
distinguish paused from shutting-down: after a completed shutdown
(running false, per-type blocking client closed and deallocated),
resume() returns true and sets running back to true, and the next
claim-loop run initiates a claim — allocating a fresh per-type client
and issuing the blocking wait. -/
theorem c10_resume_after_shutdown :
    c10shutdownRun.1.w.running = false ∧
    c10shutdownRun.1.w.clientFor = false ∧
    Action.quitClient ∈ c10shutdownRun.2 ∧
    c10resume.1 = true ∧
    c10resume.2.running = true ∧
    c10claim.2 = [.slotSet .noJob, .createClient, .blpopIssued] := by
  refine ⟨rfl, rfl, by decide, rfl, rfl, rfl⟩

end KueWorker
